import Mathlib

/-!
Verification of the retail loss-prevention analytics pipeline
(per-stream anomaly detectors, cross-stream correlation engine,
severity scorer and event assembler).

The definitions below are a shallow embedding of the Python sources:
  analysis_inventory_snapshots.py  (InventoryShrinkageDetector)
  analysis_pos_transactions.py     (WeightDiscrepancyDetector,
                                    BarcodeSwappingDetector,
                                    CustomerBehaviorAnalyzer)
  master_analysis.py               (CrossCorrelationAnalyzer,
                                    FraudSeverityScorer,
                                    generate_events_jsonl)

Numbers are modelled as rationals (the Python code computes with floats;
all inputs exercised by the theorems are exactly representable and far
from rounding boundaries), timestamps as ISO-8601 strings of the shape
YYYY-MM-DDTHH:MM:SS together with an explicit civil-calendar parser that
mirrors datetime.fromisoformat followed by subtraction in seconds.
-/

namespace Sentinel

/-! ### Timestamp arithmetic

Model of Python `datetime.fromisoformat` on strings of the form
YYYY-MM-DDTHH:MM:SS, returning seconds since the civil epoch 1970-01-01.
Uses the standard days-from-civil algorithm.  Malformed strings (which
would raise in Python) are mapped to 0; no theorem depends on that case.
-/

/-- Split a character list at every occurrence of a separator (the
splitting step of parsing YYYY-MM-DDTHH:MM:SS). -/
def splitChar (sep : Char) : List Char → List (List Char)
  | [] => [[]]
  | c :: rest =>
      let r := splitChar sep rest
      if c = sep then [] :: r
      else
        match r with
        | h :: t => (c :: h) :: t
        | [] => [[c]]

/-- Decimal value of a digit field, as `int(...)` reads it. -/
def parseNatField (cs : List Char) : Int :=
  ((cs.foldl (fun acc c => acc * 10 + (c.toNat - 48)) 0 : Nat) : Int)

def daysFromCivil (y m d : Int) : Int :=
  let y := y - (if m ≤ 2 then 1 else 0)
  let era := (if 0 ≤ y then y else y - 399) / 400
  let yoe := y - era * 400
  let doy := (153 * (m + (if 2 < m then -3 else 9)) + 2) / 5 + d - 1
  let doe := yoe * 365 + yoe / 4 - yoe / 100 + doy
  era * 146097 + doe - 719468

def toSeconds (ts : String) : Int :=
  match splitChar 'T' ts.data with
  | [date, time] =>
    match splitChar '-' date, splitChar ':' time with
    | [y, mo, da], [h, mi, se] =>
        daysFromCivil (parseNatField y) (parseNatField mo) (parseNatField da) * 86400
          + parseNatField h * 3600 + parseNatField mi * 60 + parseNatField se
    | _, _ => 0
  | _ => 0

/-! ### Fixed-point formatting

Model of the Python format specifiers `:.1f` and `:.2f` for rationals.
Python rounds the underlying double to the nearest decimal; every value
formatted in the theorems below is exactly representable at the target
precision, where the two coincide.
-/

def padZeros (s : String) (d : Nat) : String :=
  if d ≤ s.length then s else String.mk (List.replicate (d - s.length) '0') ++ s

def formatFixed (d : Nat) (q : ℚ) : String :=
  let n : Int := Rat.floor (q * (10 : ℚ) ^ d + 1/2)
  let sign := if n < 0 then "-" else ""
  let m := n.natAbs
  sign ++ toString (m / 10 ^ d) ++ "." ++ padZeros (toString (m % 10 ^ d)) d

/-- Model of Python `str.lower()` restricted to ASCII, as used on the
severity labels HIGH and MEDIUM. -/
def lowerStr (s : String) : String :=
  String.mk (s.data.map Char.toLower)

/-- Model of Python `str.replace` for the single-character pattern
`.replace('_', ' ')` used on anomaly-type labels. -/
def replaceUnderscore (s : String) : String :=
  String.mk (s.data.map (fun c => if c = '_' then ' ' else c))

/-! ### JSON-like values

The Python pipeline passes loosely typed dicts around; nested evidence
and metadata payloads are modelled by this JSON-like value type together
with association lists for dict literals.
-/

inductive JVal where
  | num : ℚ → JVal
  | str : String → JVal
  | obj : List (String × JVal) → JVal
  | arr : List JVal → JVal
deriving Repr

/-- Model of Python dict key lookup (`key in d` and `d[key]`) on a dict
literal represented as an association list. -/
def lookupKey (d : List (String × JVal)) (key : String) : Option JVal :=
  match d with
  | [] => none
  | (k, v) :: rest => if key = k then some v else lookupKey rest key

/-- Numeric payload of a JSON value.  The Python code uses the value
arithmetically, which raises on non-numbers; that case is never produced
by the pipeline and is excluded by the hypotheses of the theorems. -/
def JVal.asNum : JVal → ℚ
  | .num q => q
  | _ => 0

/-! ### Inventory shrinkage detector

From analysis_inventory_snapshots.py, class InventoryShrinkageDetector.
A snapshot row of the pandas frame is a timestamp plus a partial map
from product column to quantity (a product missing from a row is NaN in
pandas; every comparison against NaN is false, which is exactly the
behaviour of the Option lookups below).
-/

structure Snapshot where
  timestamp : String
  quantities : List (String × ℚ)
deriving Repr, DecidableEq

def getQty (s : Snapshot) (product : String) : Option ℚ :=
  match s.quantities.find? (fun pq => pq.1 = product) with
  | some pq => some pq.2
  | none => none

structure ShrinkEvent where
  timestamp : String
  product : String
  previous_qty : ℚ
  current_qty : ℚ
  decrease_percentage : ℚ
  severity : String
deriving Repr, DecidableEq

/-- Body of the inner loop of detect_shrinkage_events for one product and
one temporally adjacent pair of snapshots (the source guards the division
with `product_data[i-1] > 0` and emits when `decrease_pct > threshold`,
with severity HIGH when `decrease_pct > 10` else MEDIUM). -/
def shrinkCheck (threshold : ℚ) (product : String) (prev curr : Snapshot) : Option ShrinkEvent :=
  match getQty prev product, getQty curr product with
  | some pq, some cq =>
    if 0 < pq then
      let decrease_pct := (pq - cq) / pq * 100
      if decrease_pct > threshold then
        some { timestamp := curr.timestamp
             , product := product
             , previous_qty := pq
             , current_qty := cq
             , decrease_percentage := decrease_pct
             , severity := if decrease_pct > 10 then "HIGH" else "MEDIUM" }
      else none
    else none
  | _, _ => none

/-- The temporally adjacent pairs of a list, in order. -/
def adjPairs {α : Type} : List α → List (α × α)
  | a :: b :: rest => (a, b) :: adjPairs (b :: rest)
  | _ => []

/-- InventoryShrinkageDetector.detect_shrinkage_events: outer loop over
product columns, inner loop over indices 1..len comparing each row with
its predecessor. -/
def detect_shrinkage_events (threshold : ℚ) (products : List String) (snaps : List Snapshot) : List ShrinkEvent :=
  products.flatMap (fun p =>
    (adjPairs snaps).filterMap (fun pr => shrinkCheck threshold p pr.1 pr.2))

/-! ### POS transaction detectors

From analysis_pos_transactions.py.  The loader flattens each record to a
row with string identifiers, a price and two weight fields; a weight can
be NaN in pandas (modelled as `none`; every NaN comparison is false,
matching the Option cases below).
-/

structure PosTransaction where
  timestamp : String
  customer_id : String
  station_id : String
  sku : String
  product_name : String
  price : ℚ
  expected_weight : Option ℚ
  actual_weight : Option ℚ
deriving Repr, DecidableEq

structure WeightDisc where
  timestamp : String
  customer_id : String
  station_id : String
  sku : String
  product_name : String
  expected_weight : ℚ
  actual_weight : ℚ
  weight_difference_pct : ℚ
  price : ℚ
  severity : String
deriving Repr, DecidableEq

/-- Loop body of WeightDiscrepancyDetector.detect_weight_discrepancies:
skip rows where either weight is NaN, guard `expected > 0`, flag when
`abs((actual - expected) / expected) * 100 > tolerance`, severity HIGH
above 50 else MEDIUM.  (The source also precomputes a per-SKU
first-expected-weight dict which it never uses; that dead code is
omitted.) -/
def weightCheck (tolerance : ℚ) (t : PosTransaction) : Option WeightDisc :=
  match t.actual_weight, t.expected_weight with
  | some actual, some expected =>
    if 0 < expected then
      let weight_diff_pct := |(actual - expected) / expected| * 100
      if weight_diff_pct > tolerance then
        some { timestamp := t.timestamp
             , customer_id := t.customer_id
             , station_id := t.station_id
             , sku := t.sku
             , product_name := t.product_name
             , expected_weight := expected
             , actual_weight := actual
             , weight_difference_pct := weight_diff_pct
             , price := t.price
             , severity := if weight_diff_pct > 50 then "HIGH" else "MEDIUM" }
      else none
    else none
  | _, _ => none

def detect_weight_discrepancies (tolerance : ℚ) (txs : List PosTransaction) : List WeightDisc :=
  txs.filterMap (weightCheck tolerance)

structure SwapEvent where
  timestamp : String
  customer_id : String
  station_id : String
  sku : String
  product_name : String
  price : ℚ
  actual_weight : ℚ
  current_price_per_gram : ℚ
  expected_price_per_gram : ℚ
  price_ratio : ℚ
  suspicion_reason : String
deriving Repr, DecidableEq

/-- First pass of BarcodeSwappingDetector.detect_barcode_swapping: the
per-SKU list of `price / expected_weight`, over the transactions of the
given SKU whose expected weight is positive (NaN compares false), in row
order. -/
def sku_ppg_list (txs : List PosTransaction) (sku : String) : List ℚ :=
  txs.filterMap (fun t =>
    if t.sku = sku then
      match t.expected_weight with
      | some w => if 0 < w then some (t.price / w) else none
      | none => none
    else none)

/-- Second pass: the per-SKU mean of the list above (`np.mean`); `none`
when the SKU never entered the dict, matching `avg_price_per_gram.get`
falling back to its default.  (The source also sorts the SKUs by average
price per gram into a variable it never uses; that dead code is
omitted.) -/
def avg_price_per_gram (txs : List PosTransaction) (sku : String) : Option ℚ :=
  let l := sku_ppg_list txs sku
  if l.isEmpty then none else some (l.sum / l.length)

/-- Loop body of the flagging pass of detect_barcode_swapping: skip rows
whose actual weight is NaN or zero, compare `price / actual_weight`
against half of the SKU average of `price / expected_weight` (falling
back to the current value when the SKU has no average), strictly. -/
def swapCheck (txs : List PosTransaction) (t : PosTransaction) : Option SwapEvent :=
  match t.actual_weight with
  | none => none
  | some actual_weight =>
    if actual_weight = 0 then none
    else
      let current_ppg := t.price / actual_weight
      let expected_ppg := (avg_price_per_gram txs t.sku).getD current_ppg
      if 0 < expected_ppg ∧ current_ppg < expected_ppg * (1/2) then
        some { timestamp := t.timestamp
             , customer_id := t.customer_id
             , station_id := t.station_id
             , sku := t.sku
             , product_name := t.product_name
             , price := t.price
             , actual_weight := actual_weight
             , current_price_per_gram := current_ppg
             , expected_price_per_gram := expected_ppg
             , price_ratio := current_ppg / expected_ppg
             , suspicion_reason := "LOW_PRICE_PER_WEIGHT" }
      else none

def detect_barcode_swapping (txs : List PosTransaction) : List SwapEvent :=
  txs.filterMap (swapCheck txs)

/-- The consecutive inter-item gaps of an already sorted list of
transaction times, in seconds. -/
def time_diffs (sortedTimes : List Int) : List Int :=
  (adjPairs sortedTimes).map (fun pr => pr.2 - pr.1)

/-- Rapid-transaction branch of CustomerBehaviorAnalyzer.
analyze_customer_patterns for one customer, over the seconds-denotations
of that customer's transaction timestamps: sort by timestamp, take the
mean of the consecutive gaps (`np.mean(time_diffs) if time_diffs else 0`)
and flag when the mean is below 10 with more than 5 transactions; the
whole check sits under a `len > 1` guard. -/
def rapid_transaction_flag (times : List Int) : Bool :=
  if times.length > 1 then
    let sorted := List.insertionSort (fun a b : Int => a ≤ b) times
    let diffs := time_diffs sorted
    let avg_time_between : ℚ :=
      if diffs.isEmpty then 0 else ((diffs.map (fun i => (i : ℚ))).sum / diffs.length)
    decide (avg_time_between < 10) && decide (times.length > 5)
  else false

/-- Per-customer iteration of the rapid-transaction analysis: the
customers retained in `results` under the rapid-transaction key. -/
def rapid_transaction_customers (byCustomer : List (String × List Int)) : List String :=
  byCustomer.filterMap (fun ct => if rapid_transaction_flag ct.2 then some ct.1 else none)

/-! ### Candidate events of the recognition and queue streams

Records of analysis_product_recognition.py low_confidence_events and
analysis_queue_monitoring.py dwell_time_anomalies, as consumed by the
correlation engine and the event assembler of master_analysis.py.
-/

structure LowConfEvent where
  timestamp : String
  station_id : String
  predicted_product : String
  confidence : ℚ
  severity : String
deriving Repr, DecidableEq

structure QueueAnomaly where
  timestamp : String
  station_id : String
  customer_count : ℚ
  dwell_time : ℚ
  anomaly_type : String
  severity : String
  potential_causes : List String
deriving Repr, DecidableEq

/-! ### Cross-correlation engine

From master_analysis.py, class CrossCorrelationAnalyzer (window default
300 seconds).
-/

structure CorrEvent where
  event_type : String
  timestamp : String
  station_id : String
  confidence : String
  description : String
  evidence : List (String × JVal)
  fraud_indicators : List String
deriving Repr

/-- The full weight-discrepancy dict as embedded in related_issues. -/
def weightDiscJson (p : WeightDisc) : List (String × JVal) :=
  [ ("timestamp", .str p.timestamp)
  , ("customer_id", .str p.customer_id)
  , ("station_id", .str p.station_id)
  , ("sku", .str p.sku)
  , ("product_name", .str p.product_name)
  , ("expected_weight", .num p.expected_weight)
  , ("actual_weight", .num p.actual_weight)
  , ("weight_difference_pct", .num p.weight_difference_pct)
  , ("price", .num p.price)
  , ("severity", .str p.severity) ]

/-- The full low-confidence dict as embedded in related_issues. -/
def lowConfJson (r : LowConfEvent) : List (String × JVal) :=
  [ ("timestamp", .str r.timestamp)
  , ("station_id", .str r.station_id)
  , ("predicted_product", .str r.predicted_product)
  , ("confidence", .num r.confidence)
  , ("severity", .str r.severity) ]

/-- Inner loop of correlate_events pairing one POS weight-discrepancy
candidate with one recognition low-confidence candidate: emit a
CORRELATED_FRAUD_ATTEMPT (confidence HIGH) when the stations match and
the absolute timestamp difference is at most the window (inclusive). -/
def fraudPairCheck (window : Int) (p : WeightDisc) (r : LowConfEvent) : Option CorrEvent :=
  let time_diff := |toSeconds p.timestamp - toSeconds r.timestamp|
  if p.station_id = r.station_id ∧ time_diff ≤ window then
    some { event_type := "CORRELATED_FRAUD_ATTEMPT"
         , timestamp := p.timestamp
         , station_id := p.station_id
         , confidence := "HIGH"
         , description := "Weight discrepancy combined with low recognition confidence"
         , evidence :=
             [ ("pos_issue", .obj
                 [ ("product", .str p.product_name)
                 , ("weight_discrepancy_pct", .num p.weight_difference_pct)
                 , ("customer_id", .str p.customer_id) ])
             , ("recognition_issue", .obj
                 [ ("predicted_product", .str r.predicted_product)
                 , ("confidence", .num r.confidence) ]) ]
         , fraud_indicators := ["weight_manipulation", "barcode_switching", "product_substitution"] }
  else none

/-- Second loop of correlate_events: for a HIGH_DWELL_TIME queue anomaly
collect every POS or recognition candidate at the same station within
the window, and emit a CUSTOMER_DIFFICULTY_WITH_FRAUD (confidence
MEDIUM) when any related candidate exists. -/
def queueCorrCheck (window : Int) (pos_events : List WeightDisc)
    (recognition_events : List LowConfEvent) (q : QueueAnomaly) : Option CorrEvent :=
  if q.anomaly_type = "HIGH_DWELL_TIME" then
    let qt := toSeconds q.timestamp
    let related_issues : List JVal :=
      (pos_events.filterMap (fun p =>
        if p.station_id = q.station_id ∧ |qt - toSeconds p.timestamp| ≤ window then
          some (.arr [.str "pos_discrepancy", .obj (weightDiscJson p)])
        else none)) ++
      (recognition_events.filterMap (fun r =>
        if r.station_id = q.station_id ∧ |qt - toSeconds r.timestamp| ≤ window then
          some (.arr [.str "recognition_issue", .obj (lowConfJson r)])
        else none))
    if related_issues.isEmpty then none
    else
      some { event_type := "CUSTOMER_DIFFICULTY_WITH_FRAUD"
           , timestamp := q.timestamp
           , station_id := q.station_id
           , confidence := "MEDIUM"
           , description := "Extended dwell time (" ++ formatFixed 1 q.dwell_time ++ "s) with technical issues"
           , evidence :=
               [ ("dwell_time", .num q.dwell_time)
               , ("customer_count", .num q.customer_count)
               , ("related_issues", .arr related_issues) ]
           , fraud_indicators := ["checkout_difficulty", "potential_fraud_complexity"] }
  else none

/-! ### Report collection

The `all_reports` dict: one optional report per stream (a stream whose
analysis failed or whose input file was missing is simply absent).  Each
report structure carries exactly the keys that correlate_events and
generate_events_jsonl read; the RFID report is never read by either.
-/

structure InventoryReport where
  shrinkage_events : List ShrinkEvent
deriving Repr

structure PosReport where
  weight_discrepancies : List WeightDisc
  suspected_barcode_swapping : List SwapEvent
deriving Repr

structure RecognitionReport where
  low_confidence_events : List LowConfEvent
deriving Repr

structure QueueReport where
  dwell_time_anomalies : List QueueAnomaly
deriving Repr

structure RfidReport where
deriving Repr

structure Reports where
  inventory : Option InventoryReport
  pos : Option PosReport
  recognition : Option RecognitionReport
  queue : Option QueueReport
  rfid : Option RfidReport
deriving Repr

/-- CrossCorrelationAnalyzer.correlate_events: the POS-x-recognition
nested loops followed by the queue loop.  (The source also extracts the
inventory shrinkage list into a local it never uses.) -/
def correlate_events (window : Int) (all_reports : Reports) : List CorrEvent :=
  let pos_events := (all_reports.pos.map PosReport.weight_discrepancies).getD []
  let recognition_events := (all_reports.recognition.map RecognitionReport.low_confidence_events).getD []
  let queue_events := (all_reports.queue.map QueueReport.dwell_time_anomalies).getD []
  pos_events.flatMap (fun p => recognition_events.filterMap (fraudPairCheck window p))
    ++ queue_events.filterMap (queueCorrCheck window pos_events recognition_events)

/-! ### Severity scorer

From master_analysis.py, class FraudSeverityScorer.  The weights dict
carries 0.3 for weight discrepancy, 0.25 for recognition confidence and
0.1 for the cross-correlation bonus (the dwell-time and inventory
weights are never read).
-/

def severity_weight_weight_discrepancy : ℚ := 3/10
def severity_weight_recognition_confidence : ℚ := 1/4
def severity_weight_cross_correlation : ℚ := 1/10

def calculate_severity_score (event_type : String) (evidence : List (String × JVal)) : ℚ :=
  let score : ℚ := 0
  let score := match lookupKey evidence "weight_difference_pct" with
    | some v => score + min (v.asNum / 100) 1 * severity_weight_weight_discrepancy
    | none => score
  let score := match lookupKey evidence "confidence" with
    | some v => score + (1 - v.asNum) * severity_weight_recognition_confidence
    | none => score
  let score := if event_type = "CORRELATED_FRAUD_ATTEMPT" ∨ event_type = "CUSTOMER_DIFFICULTY_WITH_FRAUD" then
      score + severity_weight_cross_correlation
    else score
  min score 1

/-! ### Event assembler

From master_analysis.py, generate_events_jsonl: one canonical FinalEvent
constructor per source list, then the correlated events with their
scores, then a sort ascending by the timestamp field.  Python
`list.sort` is a stable sort; a stable sort by a total preorder is
extensionally unique, and the structurally recursive insertion sort used
below is stable, so the two agree on every input.
-/

structure FinalEvent where
  timestamp : String
  event_type : String
  location : String
  severity : String
  confidence : ℚ
  description : String
  metadata : List (String × JVal)
deriving Repr

def shrinkFinal (s : ShrinkEvent) : FinalEvent :=
  { timestamp := s.timestamp
  , event_type := "INVENTORY_SHRINKAGE"
  , location := "STORE_FLOOR"
  , severity := lowerStr s.severity
  , confidence := 4/5
  , description := "Inventory decrease of " ++ formatFixed 1 s.decrease_percentage ++ "% for " ++ s.product
  , metadata :=
      [ ("product_sku", .str s.product)
      , ("quantity_change", .num (s.current_qty - s.previous_qty))
      , ("percentage_decrease", .num s.decrease_percentage) ] }

def weightFinal (w : WeightDisc) : FinalEvent :=
  { timestamp := w.timestamp
  , event_type := "WEIGHT_DISCREPANCY"
  , location := w.station_id
  , severity := lowerStr w.severity
  , confidence := 17/20
  , description := "Weight discrepancy of " ++ formatFixed 1 w.weight_difference_pct ++ "% for " ++ w.product_name
  , metadata :=
      [ ("customer_id", .str w.customer_id)
      , ("product_sku", .str w.sku)
      , ("expected_weight", .num w.expected_weight)
      , ("actual_weight", .num w.actual_weight)
      , ("price", .num w.price) ] }

def barcodeFinal : SwapEvent → FinalEvent
  | ⟨ts, cust, station, sku, _, _, _, _, _, ratio, _⟩ =>
    { timestamp := ts
    , event_type := "BARCODE_SWITCHING"
    , location := station
    , severity := "high"
    , confidence := 3/4
    , description := "Suspected barcode switching - unusually low price per weight"
    , metadata :=
        [ ("customer_id", .str cust)
        , ("product_sku", .str sku)
        , ("price_ratio", .num ratio) ] }

def recogFinal (r : LowConfEvent) : FinalEvent :=
  { timestamp := r.timestamp
  , event_type := "SCANNER_AVOIDANCE"
  , location := r.station_id
  , severity := "medium"
  , confidence := 3/5
  , description := "Very low product recognition confidence (" ++ formatFixed 2 r.confidence ++ ")"
  , metadata :=
      [ ("predicted_product", .str r.predicted_product)
      , ("recognition_confidence", .num r.confidence) ] }

def queueFinal (q : QueueAnomaly) : FinalEvent :=
  { timestamp := q.timestamp
  , event_type := "CHECKOUT_DIFFICULTY"
  , location := q.station_id
  , severity := "medium"
  , confidence := 1/2
  , description := "Unusually " ++ replaceUnderscore (lowerStr q.anomaly_type) ++ ": " ++ formatFixed 1 q.dwell_time ++ "s"
  , metadata :=
      [ ("dwell_time", .num q.dwell_time)
      , ("customer_count", .num q.customer_count)
      , ("anomaly_type", .str q.anomaly_type) ] }

/-- The correlated-event branch of generate_events_jsonl: score with the
severity scorer, bucket `> 0.7` into high else medium, and map the
confidence tier HIGH to 0.9 else 0.7. -/
def corrFinal (c : CorrEvent) : FinalEvent :=
  let severity_score := calculate_severity_score c.event_type c.evidence
  { timestamp := c.timestamp
  , event_type := c.event_type
  , location := c.station_id
  , severity := if severity_score > 7/10 then "high" else "medium"
  , confidence := if c.confidence = "HIGH" then 9/10 else 7/10
  , description := c.description
  , metadata := c.evidence }

def generate_events_jsonl (window : Int) (all_reports : Reports) : List FinalEvent :=
  let inventoryEvents := match all_reports.inventory with
    | some r => r.shrinkage_events.map shrinkFinal
    | none => []
  let posEvents := match all_reports.pos with
    | some r => r.weight_discrepancies.map weightFinal
        ++ r.suspected_barcode_swapping.map barcodeFinal
    | none => []
  let recognitionEvents := match all_reports.recognition with
    | some r => (r.low_confidence_events.filter (fun e => e.severity = "HIGH")).map recogFinal
    | none => []
  let queueEvents := match all_reports.queue with
    | some r => (r.dwell_time_anomalies.filter (fun e => e.severity = "HIGH")).map queueFinal
    | none => []
  let correlatedEvents := (correlate_events window all_reports).map corrFinal
  let events := inventoryEvents ++ posEvents ++ recognitionEvents ++ queueEvents ++ correlatedEvents
  List.insertionSort (fun a b => a.timestamp ≤ b.timestamp) events

/-! ### Comparison definition and concrete fixtures -/

/-- Modelled from the spec (not from the source): the median of a list
of rationals, midpoint of the two central elements of the sorted list
for even length.  Used only to compare the specified rapid-scanning
criterion (median inter-item time) with what the source computes (the
mean). -/
def medianOfList (xs : List ℚ) : ℚ :=
  let s := List.insertionSort (fun a b : ℚ => a ≤ b) xs
  if s.length = 0 then 0
  else if s.length % 2 = 1 then s.getD (s.length / 2) 0
  else (s.getD (s.length / 2 - 1) 0 + s.getD (s.length / 2) 0) / 2

/-- A weight-discrepancy candidate at station SCC1. -/
def wd5 : WeightDisc :=
  ⟨"2025-08-13T16:00:00", "C1", "SCC1", "SKU1", "Prod1", 1500, 2000, 100/3, 10, "MEDIUM"⟩

/-- A low-confidence recognition candidate at the same station, 120
seconds later. -/
def lc5 : LowConfEvent :=
  ⟨"2025-08-13T16:02:00", "SCC1", "Prod2", 2/5, "HIGH"⟩

/-- A report collection holding exactly the matching pair above. -/
def reports5 : Reports :=
  ⟨none, some ⟨[wd5], []⟩, some ⟨[lc5]⟩, none, none⟩

/-- The correlated event the engine produces from that pair. -/
def corr5 : CorrEvent :=
  { event_type := "CORRELATED_FRAUD_ATTEMPT"
  , timestamp := "2025-08-13T16:00:00"
  , station_id := "SCC1"
  , confidence := "HIGH"
  , description := "Weight discrepancy combined with low recognition confidence"
  , evidence :=
      [ ("pos_issue", .obj
          [ ("product", .str "Prod1")
          , ("weight_discrepancy_pct", .num (100/3))
          , ("customer_id", .str "C1") ])
      , ("recognition_issue", .obj
          [ ("predicted_product", .str "Prod2")
          , ("confidence", .num (2/5)) ]) ]
  , fraud_indicators := ["weight_manipulation", "barcode_switching", "product_substitution"] }

/-- Two transactions of SKU K: price-per-gram 3 and 1 against expected
weights, so the SKU average is 2. -/
def swA : PosTransaction := ⟨"t1", "C1", "S1", "K", "PA", 30, some 10, some 10⟩

/-- A transaction of SKU K whose actual weight 40 makes its
price-per-gram 1/4, strictly below half the SKU average. -/
def swB : PosTransaction := ⟨"t2", "C2", "S1", "K", "PB", 10, some 10, some 40⟩

/-! ## Theorems -/

theorem adjPairs_length {α : Type} : ∀ (l : List α), (adjPairs l).length = l.length - 1
  | [] => rfl
  | [_] => rfl
  | a :: b :: rest => by
      have ih := adjPairs_length (b :: rest)
      simp only [adjPairs, List.length_cons] at ih ⊢
      omega

set_option maxRecDepth 100000 in
/-- C1, counterexample.  The claim asserts the boundary cases are
inclusive: an event whenever `decrease_pct >= threshold` and severity
HIGH whenever `decrease_pct >= 10`.  With threshold 3, product A drops
exactly 3% (so the claim demands an event) and product B drops exactly
10% (so the claim demands severity HIGH); the detector emits no event
for A and grades the event for B MEDIUM, because the source compares
strictly on both boundaries. -/
theorem c1_counterexample :
    ((100 - 97 : ℚ) / 100 * 100 ≥ 3)
    ∧ ((100 - 90 : ℚ) / 100 * 100 ≥ 10)
    ∧ detect_shrinkage_events 3 ["A", "B"]
        [⟨"t1", [("A", 100), ("B", 100)]⟩, ⟨"t2", [("A", 97), ("B", 90)]⟩]
      = [⟨"t2", "B", 100, 90, 10, "MEDIUM"⟩] :=
  ⟨by norm_num, by norm_num, by with_unfolding_all rfl⟩

/-- C1, amended.  For every product present in both snapshots of a
temporally adjacent pair with previous quantity > 0, the shrinkage
detector emits an event for that pair iff
`decrease_pct = (prev - curr) / prev * 100` is STRICTLY greater than the
threshold, and the emitted severity is HIGH iff `decrease_pct` is
STRICTLY greater than 10, MEDIUM otherwise; every emitted pair event
appears in the detector output. -/
theorem c1_shrinkage_pair_emits_iff (threshold : ℚ) (product : String) (prev curr : Snapshot)
    (pq cq : ℚ) (hp : getQty prev product = some pq) (hc : getQty curr product = some cq)
    (hpos : 0 < pq) :
    ((shrinkCheck threshold product prev curr).isSome ↔ (pq - cq) / pq * 100 > threshold)
    ∧ (∀ e, shrinkCheck threshold product prev curr = some e →
        e.decrease_percentage = (pq - cq) / pq * 100
          ∧ e.severity = (if (pq - cq) / pq * 100 > 10 then "HIGH" else "MEDIUM"))
    ∧ (∀ products snaps, product ∈ products → (prev, curr) ∈ adjPairs snaps →
        ∀ e, shrinkCheck threshold product prev curr = some e →
          e ∈ detect_shrinkage_events threshold products snaps) := by
  have hkey : shrinkCheck threshold product prev curr
      = (if (pq - cq) / pq * 100 > threshold then
          some { timestamp := curr.timestamp
               , product := product
               , previous_qty := pq
               , current_qty := cq
               , decrease_percentage := (pq - cq) / pq * 100
               , severity := if (pq - cq) / pq * 100 > 10 then "HIGH" else "MEDIUM" }
        else none) := by
    unfold shrinkCheck
    rw [hp, hc]
    exact if_pos hpos
  refine ⟨?_, ?_, ?_⟩
  · rw [hkey]
    by_cases hd : (pq - cq) / pq * 100 > threshold
    · simp [hd]
    · simp [hd]
  · intro e he
    rw [hkey] at he
    by_cases hd : (pq - cq) / pq * 100 > threshold
    · rw [if_pos hd] at he
      injection he with h
      subst h
      exact ⟨rfl, rfl⟩
    · rw [if_neg hd] at he
      cases he
  · intro products snaps hprod hpair e he
    exact List.mem_flatMap.mpr ⟨product, hprod, List.mem_filterMap.mpr ⟨(prev, curr), hpair, he⟩⟩

/-- C1, witness: snapshots dropping product A from 100 to 91 (9%
decrease, threshold 3) satisfy the hypotheses, and the amended theorem
applies. -/
theorem c1_witness :
    getQty ⟨"t1", [("A", 100)]⟩ "A" = some 100
    ∧ getQty ⟨"t2", [("A", 91)]⟩ "A" = some 91
    ∧ ((0 : ℚ) < 100)
    ∧ (((shrinkCheck 3 "A" ⟨"t1", [("A", 100)]⟩ ⟨"t2", [("A", 91)]⟩).isSome
          ↔ ((100 : ℚ) - 91) / 100 * 100 > 3)
        ∧ (∀ e, shrinkCheck 3 "A" ⟨"t1", [("A", 100)]⟩ ⟨"t2", [("A", 91)]⟩ = some e →
            e.decrease_percentage = ((100 : ℚ) - 91) / 100 * 100
              ∧ e.severity = (if ((100 : ℚ) - 91) / 100 * 100 > 10 then "HIGH" else "MEDIUM"))
        ∧ (∀ products snaps, "A" ∈ products →
            ((⟨"t1", [("A", 100)]⟩ : Snapshot), (⟨"t2", [("A", 91)]⟩ : Snapshot)) ∈ adjPairs snaps →
            ∀ e, shrinkCheck 3 "A" ⟨"t1", [("A", 100)]⟩ ⟨"t2", [("A", 91)]⟩ = some e →
              e ∈ detect_shrinkage_events 3 products snaps)) :=
  ⟨rfl, rfl, by norm_num,
    c1_shrinkage_pair_emits_iff 3 "A" ⟨"t1", [("A", 100)]⟩ ⟨"t2", [("A", 91)]⟩ 100 91
      rfl rfl (by norm_num)⟩

set_option maxRecDepth 100000 in
/-- C8: with the default 15% tolerance, equal expected and actual
weights of 1500 produce no event; actual 2000 produces exactly one
MEDIUM event (33.3% discrepancy); actual 3000 produces exactly one HIGH
event (100% discrepancy). -/
theorem c8_weight_vectors :
    detect_weight_discrepancies 15 [⟨"t", "C1", "S1", "SKU1", "P", 10, some 1500, some 1500⟩] = []
    ∧ detect_weight_discrepancies 15 [⟨"t", "C1", "S1", "SKU1", "P", 10, some 1500, some 2000⟩]
        = [⟨"t", "C1", "S1", "SKU1", "P", 1500, 2000, 100/3, 10, "MEDIUM"⟩]
    ∧ detect_weight_discrepancies 15 [⟨"t", "C1", "S1", "SKU1", "P", 10, some 1500, some 3000⟩]
        = [⟨"t", "C1", "S1", "SKU1", "P", 1500, 3000, 100, 10, "HIGH"⟩] :=
  ⟨by with_unfolding_all rfl, by with_unfolding_all rfl, by with_unfolding_all rfl⟩

set_option maxRecDepth 100000 in
/-- C9: two snapshots dropping PRD_T_04 from 1000 to 914 (an 8.6%
decrease, above the default 3% threshold and at most 10%) drive the full
pipeline to a single FinalEvent with event_type INVENTORY_SHRINKAGE,
location STORE_FLOOR, severity medium, confidence 0.8, and a description
containing the substring 8.6%. -/
theorem c9_end_to_end_shrinkage :
    generate_events_jsonl 300
        ⟨some ⟨detect_shrinkage_events 3 ["PRD_T_04"]
          [⟨"2025-08-13T16:00:00", [("PRD_T_04", 1000)]⟩,
           ⟨"2025-08-13T16:10:00", [("PRD_T_04", 914)]⟩]⟩, none, none, none, none⟩
      = [{ timestamp := "2025-08-13T16:10:00"
         , event_type := "INVENTORY_SHRINKAGE"
         , location := "STORE_FLOOR"
         , severity := "medium"
         , confidence := 4/5
         , description := "Inventory decrease of 8.6% for PRD_T_04"
         , metadata :=
             [ ("product_sku", .str "PRD_T_04")
             , ("quantity_change", .num (-86))
             , ("percentage_decrease", .num (43/5)) ] }]
    ∧ ∃ a b, "Inventory decrease of 8.6% for PRD_T_04" = a ++ "8.6%" ++ b :=
  ⟨by with_unfolding_all rfl, "Inventory decrease of ", " for PRD_T_04", by with_unfolding_all rfl⟩

set_option maxRecDepth 8000 in
/-- C6, counterexample.  The claim flags on the MEDIAN inter-item time;
the source computes the MEAN.  A customer with 6 transactions whose
consecutive gaps are [1, 1, 1, 100, 100] has median gap 1 (below 10,
so the claim demands the flag) but mean gap 40.6, so the source does
not flag. -/
theorem c6_counterexample :
    time_diffs ([0, 1, 2, 3, 103, 203] : List Int) = [1, 1, 1, 100, 100]
    ∧ medianOfList [1, 1, 1, 100, 100] < 10
    ∧ ([0, 1, 2, 3, 103, 203] : List Int).length ≥ 6
    ∧ rapid_transaction_flag [0, 1, 2, 3, 103, 203] = false := by
  refine ⟨by with_unfolding_all rfl, ?_, by with_unfolding_all rfl, by with_unfolding_all rfl⟩
  have h : medianOfList [1, 1, 1, 100, 100] = 1 := by with_unfolding_all rfl
  rw [h]
  norm_num

/-- C6, amended.  The customer-behavior analyzer flags a customer as a
rapid-transaction suspect iff the customer has more than 5 transactions
(at least 6) and the MEAN of the inter-item times between consecutive
timestamp-ordered transactions is less than 10 seconds (equivalently,
their sum is less than 10 times the number of gaps). -/
theorem c6_rapid_flag_iff (times : List Int) :
    rapid_transaction_flag times = true ↔
      5 < times.length ∧
        ((time_diffs (List.insertionSort (fun a b : Int => a ≤ b) times)).map
            (fun i => (i : ℚ))).sum
          < 10 * ((times.length : ℚ) - 1) := by
  have hslen : (List.insertionSort (fun a b : Int => a ≤ b) times).length = times.length :=
    (List.perm_insertionSort _ times).length_eq
  have hdlen : (time_diffs (List.insertionSort (fun a b : Int => a ≤ b) times)).length
      = times.length - 1 := by
    simp [time_diffs, adjPairs_length, hslen]
  unfold rapid_transaction_flag
  by_cases h1 : times.length > 1
  · rw [if_pos h1]
    have hne : (time_diffs (List.insertionSort (fun a b : Int => a ≤ b) times)).isEmpty = false := by
      have hnil : time_diffs (List.insertionSort (fun a b : Int => a ≤ b) times) ≠ [] := by
        intro h
        rw [h] at hdlen
        simp at hdlen
        omega
      simpa [List.isEmpty_iff] using hnil
    simp only [hne, Bool.false_eq_true, if_false, Bool.and_eq_true, decide_eq_true_eq]
    constructor
    · rintro ⟨hm, h5⟩
      refine ⟨h5, ?_⟩
      have hpos : (0 : ℚ) < ((time_diffs (List.insertionSort (fun a b : Int => a ≤ b) times)).length : ℚ) := by
        rw [hdlen]
        have : 0 < times.length - 1 := by omega
        exact_mod_cast this
      rw [div_lt_iff₀ hpos] at hm
      have hcast : (((time_diffs (List.insertionSort (fun a b : Int => a ≤ b) times)).length : ℚ))
          = (times.length : ℚ) - 1 := by
        rw [hdlen]
        have h1n : (1 : ℕ) ≤ times.length := by omega
        push_cast [Nat.cast_sub h1n]
        ring
      rw [hcast] at hm
      linarith
    · rintro ⟨h5, hsum⟩
      have hpos : (0 : ℚ) < ((time_diffs (List.insertionSort (fun a b : Int => a ≤ b) times)).length : ℚ) := by
        rw [hdlen]
        have : 0 < times.length - 1 := by omega
        exact_mod_cast this
      have hcast : (((time_diffs (List.insertionSort (fun a b : Int => a ≤ b) times)).length : ℚ))
          = (times.length : ℚ) - 1 := by
        rw [hdlen]
        have h1n : (1 : ℕ) ≤ times.length := by omega
        push_cast [Nat.cast_sub h1n]
        ring
      refine ⟨?_, h5⟩
      rw [div_lt_iff₀ hpos, hcast]
      linarith
  · rw [if_neg h1]
    constructor
    · intro h
      exact absurd h (by simp)
    · rintro ⟨h5, -⟩
      exact absurd h5 (by omega)

set_option maxRecDepth 8000 in
/-- C7, counterexample.  The second transaction of SKU K has
price-per-gram 1 (price 10, weight 10, expected equal to actual so
every reading of price-per-gram coincides), exactly 50% of the SKU
average 2, so the claim (at most 50%) demands a flag; the source
compares strictly and emits nothing. -/
theorem c7_counterexample :
    ((10 : ℚ) / 10) ≤ (1/2) * (((30 : ℚ)/10 + 10/10) / 2)
    ∧ detect_barcode_swapping
        [⟨"t1", "C1", "S1", "K", "PA", 30, some 10, some 10⟩,
         ⟨"t2", "C2", "S1", "K", "PB", 10, some 10, some 10⟩] = [] :=
  ⟨by norm_num, by with_unfolding_all rfl⟩

/-- C7, amended.  For a transaction with known actual weight that is
nonzero and a SKU with at least one positive expected weight, the
barcode-swap detector flags the transaction iff the SKU average of
price over EXPECTED weight is positive and the price over ACTUAL weight
of the transaction is STRICTLY below half of that average; the two
sides of the comparison use different weight fields, and every flagged
transaction appears in the detector output. -/
theorem c7_swap_flag_iff (txs : List PosTransaction) (t : PosTransaction) (aw : ℚ)
    (ht : t.actual_weight = some aw) (hw : aw ≠ 0)
    (hl : sku_ppg_list txs t.sku ≠ []) :
    ((swapCheck txs t).isSome ↔
       (0 < (sku_ppg_list txs t.sku).sum / (sku_ppg_list txs t.sku).length
         ∧ t.price / aw < ((sku_ppg_list txs t.sku).sum / (sku_ppg_list txs t.sku).length) * (1/2)))
    ∧ (∀ e, swapCheck txs t = some e →
        e.current_price_per_gram = t.price / aw
          ∧ e.expected_price_per_gram
              = (sku_ppg_list txs t.sku).sum / (sku_ppg_list txs t.sku).length)
    ∧ (t ∈ txs → ∀ e, swapCheck txs t = some e → e ∈ detect_barcode_swapping txs) := by
  have havg : avg_price_per_gram txs t.sku
      = some ((sku_ppg_list txs t.sku).sum / (sku_ppg_list txs t.sku).length) := by
    unfold avg_price_per_gram
    simp [List.isEmpty_iff, hl]
  have hkey : swapCheck txs t
      = (if 0 < (sku_ppg_list txs t.sku).sum / (sku_ppg_list txs t.sku).length
            ∧ t.price / aw
                < ((sku_ppg_list txs t.sku).sum / (sku_ppg_list txs t.sku).length) * (1/2) then
          some { timestamp := t.timestamp
               , customer_id := t.customer_id
               , station_id := t.station_id
               , sku := t.sku
               , product_name := t.product_name
               , price := t.price
               , actual_weight := aw
               , current_price_per_gram := t.price / aw
               , expected_price_per_gram :=
                   (sku_ppg_list txs t.sku).sum / (sku_ppg_list txs t.sku).length
               , price_ratio :=
                   (t.price / aw)
                     / ((sku_ppg_list txs t.sku).sum / (sku_ppg_list txs t.sku).length)
               , suspicion_reason := "LOW_PRICE_PER_WEIGHT" }
        else none) := by
    unfold swapCheck
    rw [ht]
    dsimp only
    rw [if_neg hw, havg]
    rfl
  refine ⟨?_, ?_, ?_⟩
  · rw [hkey]
    by_cases hd : 0 < (sku_ppg_list txs t.sku).sum / (sku_ppg_list txs t.sku).length
        ∧ t.price / aw
            < ((sku_ppg_list txs t.sku).sum / (sku_ppg_list txs t.sku).length) * (1/2)
    · simp [hd]
    · simp [hd]
  · intro e he
    rw [hkey] at he
    by_cases hd : 0 < (sku_ppg_list txs t.sku).sum / (sku_ppg_list txs t.sku).length
        ∧ t.price / aw
            < ((sku_ppg_list txs t.sku).sum / (sku_ppg_list txs t.sku).length) * (1/2)
    · rw [if_pos hd] at he
      injection he with h
      subst h
      exact ⟨rfl, rfl⟩
    · rw [if_neg hd] at he
      cases he
  · intro hmem e he
    exact List.mem_filterMap.mpr ⟨t, hmem, he⟩

set_option maxRecDepth 8000 in
/-- C7, witness: the transaction swB (price 10, actual weight 40,
price-per-gram 1/4) against the SKU average 2 satisfies the hypotheses
and is flagged by the amended criterion. -/
theorem c7_witness :
    swB.actual_weight = some 40
    ∧ ((40 : ℚ) ≠ 0)
    ∧ sku_ppg_list [swA, swB] swB.sku ≠ []
    ∧ (((swapCheck [swA, swB] swB).isSome ↔
         (0 < (sku_ppg_list [swA, swB] swB.sku).sum / (sku_ppg_list [swA, swB] swB.sku).length
           ∧ swB.price / 40
               < ((sku_ppg_list [swA, swB] swB.sku).sum
                   / (sku_ppg_list [swA, swB] swB.sku).length) * (1/2)))
        ∧ (∀ e, swapCheck [swA, swB] swB = some e →
            e.current_price_per_gram = swB.price / 40
              ∧ e.expected_price_per_gram
                  = (sku_ppg_list [swA, swB] swB.sku).sum
                      / (sku_ppg_list [swA, swB] swB.sku).length)
        ∧ (swB ∈ [swA, swB] → ∀ e, swapCheck [swA, swB] swB = some e →
            e ∈ detect_barcode_swapping [swA, swB])) :=
  ⟨rfl, by norm_num, by with_unfolding_all decide,
    c7_swap_flag_iff [swA, swB] swB 40 rfl (by norm_num) (by with_unfolding_all decide)⟩

/-- C2: a POS weight-discrepancy candidate and a recognition
low-confidence candidate are correlated into a CORRELATED_FRAUD_ATTEMPT
of confidence HIGH exactly when they share the station and the absolute
timestamp difference is at most the window (inclusive, so a difference
of exactly the window correlates and window + 1 does not); the
CORRELATED_FRAUD_ATTEMPT part of the engine output is precisely the
event list of all matching pairs, so every match is retained. -/
theorem c2_correlation_pairs (window : Int) (all_reports : Reports)
    (p : WeightDisc) (r : LowConfEvent) :
    ((fraudPairCheck window p r).isSome ↔
        (p.station_id = r.station_id
          ∧ |toSeconds p.timestamp - toSeconds r.timestamp| ≤ window))
    ∧ (∀ c, fraudPairCheck window p r = some c →
        c.event_type = "CORRELATED_FRAUD_ATTEMPT" ∧ c.confidence = "HIGH")
    ∧ ((correlate_events window all_reports).filter
          (fun c => c.event_type = "CORRELATED_FRAUD_ATTEMPT")
        = ((all_reports.pos.map PosReport.weight_discrepancies).getD []).flatMap
            (fun p' =>
              ((all_reports.recognition.map RecognitionReport.low_confidence_events).getD
                  []).filterMap (fraudPairCheck window p'))) := by
  refine ⟨?_, ?_, ?_⟩
  · unfold fraudPairCheck
    by_cases h : p.station_id = r.station_id
        ∧ |toSeconds p.timestamp - toSeconds r.timestamp| ≤ window
    · simp [h]
    · simp [h]
  · intro c hc
    unfold fraudPairCheck at hc
    by_cases h : p.station_id = r.station_id
        ∧ |toSeconds p.timestamp - toSeconds r.timestamp| ≤ window
    · rw [if_pos h] at hc
      injection hc with h2
      subst h2
      exact ⟨rfl, rfl⟩
    · rw [if_neg h] at hc
      cases hc
  · unfold correlate_events
    rw [List.filter_append]
    have hA : (((all_reports.pos.map PosReport.weight_discrepancies).getD []).flatMap
          (fun p' =>
            ((all_reports.recognition.map RecognitionReport.low_confidence_events).getD
                []).filterMap (fraudPairCheck window p'))).filter
          (fun c => c.event_type = "CORRELATED_FRAUD_ATTEMPT")
        = ((all_reports.pos.map PosReport.weight_discrepancies).getD []).flatMap
            (fun p' =>
              ((all_reports.recognition.map RecognitionReport.low_confidence_events).getD
                  []).filterMap (fraudPairCheck window p')) := by
      rw [List.filter_eq_self]
      intro c hcmem
      obtain ⟨p', _, hc'⟩ := List.mem_flatMap.mp hcmem
      obtain ⟨r', _, heq⟩ := List.mem_filterMap.mp hc'
      unfold fraudPairCheck at heq
      by_cases h : p'.station_id = r'.station_id
          ∧ |toSeconds p'.timestamp - toSeconds r'.timestamp| ≤ window
      · rw [if_pos h] at heq
        injection heq with h2
        subst h2
        simp
      · rw [if_neg h] at heq
        cases heq
    have hB : (((all_reports.queue.map QueueReport.dwell_time_anomalies).getD []).filterMap
          (queueCorrCheck window
            ((all_reports.pos.map PosReport.weight_discrepancies).getD [])
            ((all_reports.recognition.map RecognitionReport.low_confidence_events).getD
              []))).filter
          (fun c => c.event_type = "CORRELATED_FRAUD_ATTEMPT") = [] := by
      rw [List.filter_eq_nil_iff]
      intro c hcmem
      obtain ⟨q, _, heq⟩ := List.mem_filterMap.mp hcmem
      unfold queueCorrCheck at heq
      by_cases h1 : q.anomaly_type = "HIGH_DWELL_TIME"
      · rw [if_pos h1] at heq
        dsimp only at heq
        split at heq
        · cases heq
        · injection heq with h2
          subst h2
          simp
      · rw [if_neg h1] at heq
        cases heq
    rw [hA, hB, List.append_nil]

/-- C2, witness: the theorem applied to the concrete matching pair wd5
and lc5 (same station, 120 seconds apart) inside reports5. -/
theorem c2_witness :
    ((fraudPairCheck 300 wd5 lc5).isSome ↔
        (wd5.station_id = lc5.station_id
          ∧ |toSeconds wd5.timestamp - toSeconds lc5.timestamp| ≤ 300))
    ∧ (∀ c, fraudPairCheck 300 wd5 lc5 = some c →
        c.event_type = "CORRELATED_FRAUD_ATTEMPT" ∧ c.confidence = "HIGH")
    ∧ ((correlate_events 300 reports5).filter
          (fun c => c.event_type = "CORRELATED_FRAUD_ATTEMPT")
        = ((reports5.pos.map PosReport.weight_discrepancies).getD []).flatMap
            (fun p' =>
              ((reports5.recognition.map RecognitionReport.low_confidence_events).getD
                  []).filterMap (fraudPairCheck 300 p'))) :=
  c2_correlation_pairs 300 reports5 wd5 lc5

/-- C3: for any event whose top-level evidence values at the keys read
by the scorer are numbers with weight percentage nonnegative and
confidence within the unit interval, the severity score lies in [0, 1];
with both features missing only the cross-correlation bonus remains;
and the assembled severity of a correlated event is high exactly when
the score exceeds 0.7, medium otherwise. -/
theorem c3_severity_score_bounds (event_type : String) (evidence : List (String × JVal))
    (hw : ∀ v, lookupKey evidence "weight_difference_pct" = some v →
        ∃ q, v = JVal.num q ∧ 0 ≤ q)
    (hcf : ∀ v, lookupKey evidence "confidence" = some v →
        ∃ q, v = JVal.num q ∧ 0 ≤ q ∧ q ≤ 1) :
    (0 ≤ calculate_severity_score event_type evidence
      ∧ calculate_severity_score event_type evidence ≤ 1)
    ∧ (lookupKey evidence "weight_difference_pct" = none →
        lookupKey evidence "confidence" = none →
        calculate_severity_score event_type evidence
          = (if event_type = "CORRELATED_FRAUD_ATTEMPT"
                ∨ event_type = "CUSTOMER_DIFFICULTY_WITH_FRAUD"
              then 1/10 else 0))
    ∧ (∀ c : CorrEvent, c.event_type = event_type → c.evidence = evidence →
        (((corrFinal c).severity = "high"
            ↔ 7/10 < calculate_severity_score event_type evidence)
          ∧ ((corrFinal c).severity = "high" ∨ (corrFinal c).severity = "medium"))) := by
  refine ⟨?_, ?_, ?_⟩
  · rcases hgw : lookupKey evidence "weight_difference_pct" with _ | v
      <;> rcases hgc : lookupKey evidence "confidence" with _ | w
      <;> simp only [calculate_severity_score, hgw, hgc]
    · by_cases hb : event_type = "CORRELATED_FRAUD_ATTEMPT"
          ∨ event_type = "CUSTOMER_DIFFICULTY_WITH_FRAUD"
        <;> simp only [hb, if_true, if_false, severity_weight_cross_correlation]
        <;> constructor
        <;> norm_num
    · obtain ⟨q, rfl, hq0, hq1⟩ := hcf w hgc
      by_cases hb : event_type = "CORRELATED_FRAUD_ATTEMPT"
          ∨ event_type = "CUSTOMER_DIFFICULTY_WITH_FRAUD"
        <;> simp only [hb, if_true, if_false, JVal.asNum,
              severity_weight_recognition_confidence, severity_weight_cross_correlation]
        <;> refine ⟨le_min ?_ zero_le_one, min_le_right _ _⟩
      · show (0:ℚ) ≤ 0 + (1 - q) * (1/4) + 1/10
        nlinarith
      · show (0:ℚ) ≤ 0 + (1 - q) * (1/4)
        nlinarith
    · obtain ⟨q, rfl, hq0⟩ := hw v hgw
      have hm0 : 0 ≤ min (q / 100) 1 := le_min (by positivity) zero_le_one
      have hm1 : min (q / 100) 1 ≤ 1 := min_le_right _ _
      by_cases hb : event_type = "CORRELATED_FRAUD_ATTEMPT"
          ∨ event_type = "CUSTOMER_DIFFICULTY_WITH_FRAUD"
        <;> simp only [hb, if_true, if_false, JVal.asNum,
              severity_weight_weight_discrepancy, severity_weight_cross_correlation]
        <;> refine ⟨le_min ?_ zero_le_one, min_le_right _ _⟩
      · show (0:ℚ) ≤ 0 + min (q/100) 1 * (3/10) + 1/10
        nlinarith
      · show (0:ℚ) ≤ 0 + min (q/100) 1 * (3/10)
        nlinarith
    · obtain ⟨q, rfl, hq0⟩ := hw v hgw
      obtain ⟨q2, rfl, hq20, hq21⟩ := hcf w hgc
      have hm0 : 0 ≤ min (q / 100) 1 := le_min (by positivity) zero_le_one
      have hm1 : min (q / 100) 1 ≤ 1 := min_le_right _ _
      by_cases hb : event_type = "CORRELATED_FRAUD_ATTEMPT"
          ∨ event_type = "CUSTOMER_DIFFICULTY_WITH_FRAUD"
        <;> simp only [hb, if_true, if_false, JVal.asNum,
              severity_weight_weight_discrepancy, severity_weight_recognition_confidence,
              severity_weight_cross_correlation]
        <;> refine ⟨le_min ?_ zero_le_one, min_le_right _ _⟩
      · show (0:ℚ) ≤ 0 + min (q/100) 1 * (3/10) + (1 - q2) * (1/4) + 1/10
        nlinarith
      · show (0:ℚ) ≤ 0 + min (q/100) 1 * (3/10) + (1 - q2) * (1/4)
        nlinarith
  · intro hnw hnc
    simp only [calculate_severity_score, hnw, hnc]
    by_cases hb : event_type = "CORRELATED_FRAUD_ATTEMPT"
        ∨ event_type = "CUSTOMER_DIFFICULTY_WITH_FRAUD"
      <;> simp only [hb, if_true, if_false, severity_weight_cross_correlation]
      <;> norm_num
  · intro c hce hcev
    unfold corrFinal
    dsimp only
    rw [hce, hcev]
    by_cases hsc : 7/10 < calculate_severity_score event_type evidence
    · rw [if_pos hsc]
      exact ⟨⟨fun _ => hsc, fun _ => rfl⟩, Or.inl rfl⟩
    · rw [if_neg hsc]
      exact ⟨⟨fun h => absurd h (by decide), fun h => absurd h hsc⟩, Or.inr rfl⟩

/-- C3, witness: a correlated event with weight percentage 50 and
confidence 0.8 satisfies the hypotheses and the theorem applies
(its score is 0.3). -/
theorem c3_witness :
    (0 ≤ calculate_severity_score "CORRELATED_FRAUD_ATTEMPT"
        [("weight_difference_pct", JVal.num 50), ("confidence", JVal.num (4/5))]
      ∧ calculate_severity_score "CORRELATED_FRAUD_ATTEMPT"
          [("weight_difference_pct", JVal.num 50), ("confidence", JVal.num (4/5))] ≤ 1)
    ∧ (lookupKey [("weight_difference_pct", JVal.num 50), ("confidence", JVal.num (4/5))]
          "weight_difference_pct" = none →
        lookupKey [("weight_difference_pct", JVal.num 50), ("confidence", JVal.num (4/5))]
          "confidence" = none →
        calculate_severity_score "CORRELATED_FRAUD_ATTEMPT"
            [("weight_difference_pct", JVal.num 50), ("confidence", JVal.num (4/5))]
          = (if ("CORRELATED_FRAUD_ATTEMPT" : String) = "CORRELATED_FRAUD_ATTEMPT"
                ∨ ("CORRELATED_FRAUD_ATTEMPT" : String) = "CUSTOMER_DIFFICULTY_WITH_FRAUD"
              then 1/10 else 0))
    ∧ (∀ c : CorrEvent, c.event_type = "CORRELATED_FRAUD_ATTEMPT" →
        c.evidence = [("weight_difference_pct", JVal.num 50), ("confidence", JVal.num (4/5))] →
        (((corrFinal c).severity = "high"
            ↔ 7/10 < calculate_severity_score "CORRELATED_FRAUD_ATTEMPT"
                [("weight_difference_pct", JVal.num 50), ("confidence", JVal.num (4/5))])
          ∧ ((corrFinal c).severity = "high" ∨ (corrFinal c).severity = "medium"))) :=
  c3_severity_score_bounds "CORRELATED_FRAUD_ATTEMPT"
    [("weight_difference_pct", JVal.num 50), ("confidence", JVal.num (4/5))]
    (fun v h => by
      have h2 : JVal.num 50 = v := Option.some.inj (by with_unfolding_all exact h)
      exact ⟨50, h2.symm, by norm_num⟩)
    (fun v h => by
      have h2 : JVal.num (4/5) = v := Option.some.inj (by with_unfolding_all exact h)
      exact ⟨4/5, h2.symm, by norm_num, by norm_num⟩)

/-- C4: for every window and report collection the assembled event list
is sorted ascending by timestamp: every adjacent pair of output records
satisfies timestamp[i] <= timestamp[i+1] under the string order. -/
theorem c4_output_sorted (window : Int) (all_reports : Reports) :
    List.Chain' (fun a b : FinalEvent => a.timestamp ≤ b.timestamp)
      (generate_events_jsonl window all_reports) := by
  unfold generate_events_jsonl
  exact List.Pairwise.chain'
    (@List.sorted_insertionSort FinalEvent (fun a b => a.timestamp ≤ b.timestamp) _
      ⟨fun a b => le_total a.timestamp b.timestamp⟩
      ⟨fun _ _ _ hab hbc => le_trans hab hbc⟩ _)

/-- The severity score of an event none of whose scored top-level keys
is present is exactly the cross-correlation bonus. -/
theorem score_no_features (event_type : String) (evidence : List (String × JVal))
    (h1 : lookupKey evidence "weight_difference_pct" = none)
    (h2 : lookupKey evidence "confidence" = none)
    (hb : event_type = "CORRELATED_FRAUD_ATTEMPT"
      ∨ event_type = "CUSTOMER_DIFFICULTY_WITH_FRAUD") :
    calculate_severity_score event_type evidence = 1/10 := by
  unfold calculate_severity_score
  rw [h1, h2]
  show min (if event_type = "CORRELATED_FRAUD_ATTEMPT"
      ∨ event_type = "CUSTOMER_DIFFICULTY_WITH_FRAUD" then
        (0 : ℚ) + severity_weight_cross_correlation
      else 0) 1 = 1/10
  rw [if_pos hb, min_def, severity_weight_cross_correlation]
  norm_num

/-- A correlated event without scored top-level keys scores 0.1 and is
assembled with severity medium. -/
theorem corrFinal_no_features (c : CorrEvent)
    (h1 : lookupKey c.evidence "weight_difference_pct" = none)
    (h2 : lookupKey c.evidence "confidence" = none)
    (hb : c.event_type = "CORRELATED_FRAUD_ATTEMPT"
      ∨ c.event_type = "CUSTOMER_DIFFICULTY_WITH_FRAUD") :
    calculate_severity_score c.event_type c.evidence = 1/10
    ∧ (corrFinal c).severity = "medium" := by
  have hs := score_no_features c.event_type c.evidence h1 h2 hb
  refine ⟨hs, ?_⟩
  unfold corrFinal
  dsimp only
  rw [hs]
  norm_num

/-- C5: every correlated event the engine produces nests the weight
percentage and recognition confidence inside pos_issue /
recognition_issue / related_issues, so the scorer finds neither
top-level key, scores the event at exactly 0.1 (the cross-correlation
bonus alone), and the assembled severity of every correlated event is
medium. -/
theorem c5_correlated_always_medium (window : Int) (all_reports : Reports) (c : CorrEvent)
    (hc : c ∈ correlate_events window all_reports) :
    calculate_severity_score c.event_type c.evidence = 1/10
    ∧ (corrFinal c).severity = "medium" := by
  unfold correlate_events at hc
  rcases List.mem_append.mp hc with hmem | hmem
  · obtain ⟨p, _, hpc⟩ := List.mem_flatMap.mp hmem
    obtain ⟨r, _, heq⟩ := List.mem_filterMap.mp hpc
    unfold fraudPairCheck at heq
    by_cases h : p.station_id = r.station_id
        ∧ |toSeconds p.timestamp - toSeconds r.timestamp| ≤ window
    · rw [if_pos h] at heq
      injection heq with h2
      subst h2
      exact corrFinal_no_features _ rfl rfl (Or.inl rfl)
    · rw [if_neg h] at heq
      cases heq
  · obtain ⟨q, _, heq⟩ := List.mem_filterMap.mp hmem
    unfold queueCorrCheck at heq
    by_cases h1 : q.anomaly_type = "HIGH_DWELL_TIME"
    · rw [if_pos h1] at heq
      dsimp only at heq
      split at heq
      · cases heq
      · injection heq with h2
        subst h2
        exact corrFinal_no_features _ rfl rfl (Or.inr rfl)
    · rw [if_neg h1] at heq
      cases heq

set_option maxRecDepth 100000 in
set_option maxHeartbeats 2000000 in
/-- C5, witness: the engine run on reports5 produces exactly the
correlated event corr5, which scores 0.1 and is assembled with severity
medium. -/
theorem c5_witness :
    corr5 ∈ correlate_events 300 reports5
    ∧ (calculate_severity_score corr5.event_type corr5.evidence = 1/10
        ∧ (corrFinal corr5).severity = "medium") := by
  have hlist : correlate_events 300 reports5 = [corr5] := by with_unfolding_all rfl
  have hmem : corr5 ∈ correlate_events 300 reports5 := by
    rw [hlist]
    exact List.mem_singleton.mpr rfl
  exact ⟨hmem, c5_correlated_always_medium 300 reports5 corr5 hmem⟩

/-- C10: a report collection in which any one of the five streams is
absent assembles to exactly the same output as the collection in which
that stream is present with empty candidate lists: absent streams
contribute nothing and the other streams are unaffected. -/
theorem c10_partial_input_tolerance (window : Int) (r : Reports) :
    generate_events_jsonl window { r with inventory := none }
      = generate_events_jsonl window { r with inventory := some ⟨[]⟩ }
    ∧ generate_events_jsonl window { r with pos := none }
      = generate_events_jsonl window { r with pos := some ⟨[], []⟩ }
    ∧ generate_events_jsonl window { r with recognition := none }
      = generate_events_jsonl window { r with recognition := some ⟨[]⟩ }
    ∧ generate_events_jsonl window { r with queue := none }
      = generate_events_jsonl window { r with queue := some ⟨[]⟩ }
    ∧ generate_events_jsonl window { r with rfid := none }
      = generate_events_jsonl window { r with rfid := some ⟨⟩ } :=
  ⟨rfl, rfl, rfl, rfl, rfl⟩

end Sentinel
